import Mathlib

/-!
Verification development for the RPMD (ring-polymer molecular dynamics)
integrator of the OpenMM toolkit, as reproduced in
plugins/rpmd/openmmapi/src/RPMDIntegrator.cpp.

The C++ double scalars are modelled as rationals (exact arithmetic), pointers
to Context / ContextImpl objects as numeric identities, and fallible calls as
Except values.  The backend step kernel (IntegrateRPMDStepKernel) is not part
of the reproduced sources; its operations are modelled from the spec and each
such definition says so in its doc comment.
-/

/-- A 3-component vector (the source's Vec3), with components modelled as
rationals. -/
structure Vec3 where
  x : Rat
  y : Rat
  z : Rat
deriving DecidableEq, Repr

/-- The zero vector. -/
def Vec3.zero : Vec3 := ⟨0, 0, 0⟩

/-- The part of a System the RPMD integrator observes: its particle count. -/
structure System where
  numParticles : Nat
deriving DecidableEq, Repr

/-- The error conditions of this core, named as in the spec taxonomy.
`alreadyBound` is the OpenMMException "This Integrator is already bound to a
context" thrown by RPMDIntegrator's bind step; `invalidCopyIndex` and
`particleCountMismatch` are the validation errors of the per-copy accessors;
`unboundKernel` models the (undefined in the source) act of invoking a
per-copy accessor before any kernel exists. -/
inductive OMMError where
  | alreadyBound : OMMError
  | invalidCopyIndex : OMMError
  | particleCountMismatch : OMMError
  | unboundKernel : OMMError
deriving DecidableEq, Repr

/-- Modelled from the spec: the backend RPMD step kernel
(IntegrateRPMDStepKernel, not among the reproduced sources).  It owns one
position buffer and one velocity buffer per copy, each of length equal to the
System's particle count, and a seedable pseudo-random stream
(`rngState`). -/
structure RPMDKernel where
  numParticles : Nat
  numCopies : Int
  positions : List (List Vec3)
  velocities : List (List Vec3)
  rngState : Int
deriving DecidableEq, Repr

/-- The context implementation seen by the integrator: an identity for the
ContextImpl object, the identity of its owning Context (the C++
`contextRef.getOwner()` pointer), the System, and the canonical whole-system
state (time, positions, velocities). -/
structure ContextImpl where
  id : Nat
  ownerId : Nat
  system : System
  positions : List Vec3
  velocities : List Vec3
  time : Rat
deriving DecidableEq, Repr

/-- The platform, reduced to what the bind step observes of it: its kernel
factory, modelled as a counter of how many kernels it has created. -/
structure Platform where
  kernelsCreated : Nat
deriving DecidableEq, Repr

/-- The RPMDIntegrator object: the back-references `owner` (identity of the
bound Context, NULL modelled as `none`) and `context` (identity of the bound
ContextImpl), the scalar parameters, and the kernel handle. -/
structure RPMDIntegrator where
  owner : Option Nat
  context : Option Nat
  numCopies : Int
  temperature : Rat
  friction : Rat
  stepSize : Rat
  constraintTolerance : Rat
  randomSeed : Int
  kernel : Option RPMDKernel
deriving DecidableEq, Repr

/-- Modelled from the spec: setTemperature is a plain scalar setter (its body
is in the header, not among the reproduced sources). -/
def RPMDIntegrator.setTemperature (i : RPMDIntegrator) (t : Rat) : RPMDIntegrator :=
  { i with temperature := t }

/-- Modelled from the spec: setFriction is a plain scalar setter. -/
def RPMDIntegrator.setFriction (i : RPMDIntegrator) (f : Rat) : RPMDIntegrator :=
  { i with friction := f }

/-- Modelled from the spec: setStepSize is a plain scalar setter. -/
def RPMDIntegrator.setStepSize (i : RPMDIntegrator) (dt : Rat) : RPMDIntegrator :=
  { i with stepSize := dt }

/-- Modelled from the spec: setConstraintTolerance is a plain scalar setter. -/
def RPMDIntegrator.setConstraintTolerance (i : RPMDIntegrator) (tol : Rat) : RPMDIntegrator :=
  { i with constraintTolerance := tol }

/-- Modelled from the spec: setRandomNumberSeed is a plain scalar setter. -/
def RPMDIntegrator.setRandomNumberSeed (i : RPMDIntegrator) (seed : Int) : RPMDIntegrator :=
  { i with randomSeed := seed }

/-- The RPMDIntegrator constructor (RPMDIntegrator.cpp lines 44-50): stores
`numCopies` unchecked, null owner, then runs the four setters with the given
arguments, sets constraintTolerance to 1e-4 and the random seed to the
current time `(int) time(NULL)`, modelled by the explicit parameter
`currentTime`. -/
def RPMDIntegrator.construct (numCopies : Int) (temperature frictionCoeff stepSize : Rat)
    (currentTime : Int) : RPMDIntegrator :=
  let base : RPMDIntegrator :=
    { owner := none, context := none, numCopies := numCopies,
      temperature := 0, friction := 0, stepSize := 0,
      constraintTolerance := 0, randomSeed := 0, kernel := none }
  ((((base.setTemperature temperature).setFriction frictionCoeff).setStepSize
      stepSize).setConstraintTolerance (1/10000)).setRandomNumberSeed currentTime

/-- Modelled from the spec: the kernel's own initialize call
(IntegrateRPMDStepKernel::initialize, not among the reproduced sources)
allocates the per-copy buffers once, sized from the System and the
integrator's numCopies, and seeds the kernel-owned pseudo-random stream from
the integrator's random seed. -/
def RPMDKernel.initKernel (sys : System) (numCopies : Int) (seed : Int) : RPMDKernel :=
  { numParticles := sys.numParticles,
    numCopies := numCopies,
    positions := List.replicate numCopies.toNat (List.replicate sys.numParticles Vec3.zero),
    velocities := List.replicate numCopies.toNat (List.replicate sys.numParticles Vec3.zero),
    rngState := seed }

/-- The bind step, embedding RPMDIntegrator's initialize method
(RPMDIntegrator.cpp lines 52-59): reject when already owned by a different
Context, otherwise store the context and owner back-references, create a
fresh kernel through the Platform factory and initialize it against the
System. -/
def RPMDIntegrator.bindContext (i : RPMDIntegrator) (p : Platform) (ctx : ContextImpl) :
    Except OMMError (RPMDIntegrator × Platform) :=
  if i.owner.isSome ∧ i.owner ≠ some ctx.ownerId then
    .error .alreadyBound
  else
    let i1 := { i with context := some ctx.id, owner := some ctx.ownerId }
    .ok ({ i1 with kernel := some (RPMDKernel.initKernel ctx.system i1.numCopies i1.randomSeed) },
         { p with kernelsCreated := p.kernelsCreated + 1 })

/-- Modelled from the spec: the kernel's per-copy position writer validates
the copy index against numCopies (InvalidCopyIndexError) and the vector
length against the particle count (ParticleCountMismatchError), then
overwrites one bead's position buffer. -/
def RPMDKernel.setPositions (k : RPMDKernel) (copy : Int) (ps : List Vec3) :
    Except OMMError RPMDKernel :=
  if 0 ≤ copy ∧ copy < k.numCopies then
    if ps.length = k.numParticles then
      .ok { k with positions := k.positions.set copy.toNat ps }
    else
      .error .particleCountMismatch
  else
    .error .invalidCopyIndex

/-- Modelled from the spec: the kernel's per-copy velocity writer, validated
like `RPMDKernel.setPositions`. -/
def RPMDKernel.setVelocities (k : RPMDKernel) (copy : Int) (vs : List Vec3) :
    Except OMMError RPMDKernel :=
  if 0 ≤ copy ∧ copy < k.numCopies then
    if vs.length = k.numParticles then
      .ok { k with velocities := k.velocities.set copy.toNat vs }
    else
      .error .particleCountMismatch
  else
    .error .invalidCopyIndex

/-- Modelled from the spec: copyToContext flushes the requested bead's
kernel-owned positions and velocities into the context's canonical state,
validating the copy index. -/
def RPMDKernel.copyToContext (k : RPMDKernel) (copy : Int) (c : ContextImpl) :
    Except OMMError ContextImpl :=
  if 0 ≤ copy ∧ copy < k.numCopies then
    .ok { c with positions := k.positions.getD copy.toNat [],
                 velocities := k.velocities.getD copy.toNat [] }
  else
    .error .invalidCopyIndex

/-- The field mask of a State request (the source's bitmask of State
data types, modelled as explicit flags). -/
structure FieldMask where
  wantTime : Bool
  wantPositions : Bool
  wantVelocities : Bool
deriving DecidableEq, Repr

/-- A State snapshot: an immutable value holding only the requested fields. -/
structure StateSnapshot where
  time : Option Rat
  positions : Option (List Vec3)
  velocities : Option (List Vec3)
deriving DecidableEq, Repr

/-- Modelled from the spec: the Context's getState assembles a snapshot of
only the requested fields from the live canonical context state (force and
energy fields are produced by machinery outside this core and are omitted). -/
def ContextImpl.getState (c : ContextImpl) (m : FieldMask) : StateSnapshot :=
  { time := if m.wantTime then some c.time else none,
    positions := if m.wantPositions then some c.positions else none,
    velocities := if m.wantVelocities then some c.velocities else none }

/-- RPMDIntegrator's per-copy position writer (RPMDIntegrator.cpp lines
67-69): delegate to the kernel. -/
def RPMDIntegrator.setPositions (i : RPMDIntegrator) (copy : Int) (ps : List Vec3) :
    Except OMMError RPMDIntegrator :=
  match i.kernel with
  | none => .error .unboundKernel
  | some k => (k.setPositions copy ps).map fun k' => { i with kernel := some k' }

/-- RPMDIntegrator's per-copy velocity writer (RPMDIntegrator.cpp lines
71-73): delegate to the kernel. -/
def RPMDIntegrator.setVelocities (i : RPMDIntegrator) (copy : Int) (vs : List Vec3) :
    Except OMMError RPMDIntegrator :=
  match i.kernel with
  | none => .error .unboundKernel
  | some k => (k.setVelocities copy vs).map fun k' => { i with kernel := some k' }

/-- RPMDIntegrator's getState (RPMDIntegrator.cpp lines 75-78): first flush
the requested copy from the kernel into the context (copyToContext), then
assemble the context-level snapshot; returns the snapshot together with the
context as the flush left it. -/
def RPMDIntegrator.getState (i : RPMDIntegrator) (c : ContextImpl) (copy : Int)
    (m : FieldMask) : Except OMMError (StateSnapshot × ContextImpl) :=
  match i.kernel with
  | none => .error .unboundKernel
  | some k =>
    match k.copyToContext copy c with
    | .error e => .error e
    | .ok c' => .ok (c'.getState m, c')

/-- A linear congruential step of the kernel-owned pseudo-random stream
(modelled from the spec: "an explicit, seedable pseudo-random stream owned by
the kernel instance"). -/
def lcgNext (s : Int) : Int := (1103515245 * s + 12345) % 2147483648

/-- Draw one noise value in [-1/2, 1/2) from the stream, returning the
advanced stream state. -/
def drawNoise (s : Int) : Int × Rat :=
  let s1 := lcgNext s
  (s1, (s1 : Rat) / 2147483648 - 1/2)

/-- One Langevin-thermostat velocity update of a single Vec3, drawing three
noise values from the stream (modelled from the spec). -/
def langevinVec (temp fric dt : Rat) (s : Int) (v : Vec3) : Int × Vec3 :=
  let r1 := drawNoise s
  let r2 := drawNoise r1.1
  let r3 := drawNoise r2.1
  (r3.1,
   { x := v.x - fric * dt * v.x + temp * fric * dt * r1.2,
     y := v.y - fric * dt * v.y + temp * fric * dt * r2.2,
     z := v.z - fric * dt * v.z + temp * fric * dt * r3.2 })

/-- Propagate the particles of one copy: thermostat each velocity, then
advance each position by dt times the new velocity, threading the random
stream through (modelled from the spec). -/
def stepParticles (temp fric dt : Rat) (s : Int) :
    List Vec3 → List Vec3 → Int × List Vec3 × List Vec3
  | x :: xt, v :: vt =>
    let r := langevinVec temp fric dt s v
    let x' : Vec3 := ⟨x.x + dt * r.2.x, x.y + dt * r.2.y, x.z + dt * r.2.z⟩
    let rest := stepParticles temp fric dt r.1 xt vt
    (rest.1, x' :: rest.2.1, r.2 :: rest.2.2)
  | _, _ => (s, [], [])

/-- Propagate every copy in sequence, threading the random stream (modelled
from the spec). -/
def stepCopies (temp fric dt : Rat) (s : Int) :
    List (List Vec3) → List (List Vec3) → Int × List (List Vec3) × List (List Vec3)
  | p :: pt, v :: vt =>
    let r := stepParticles temp fric dt s p v
    let rest := stepCopies temp fric dt r.1 pt vt
    (rest.1, r.2.1 :: rest.2.1, r.2.2 :: rest.2.2)
  | _, _ => (s, [], [])

/-- Modelled from the spec: the kernel's execute operation performs one full
propagation step across all beads.  The ring-polymer normal-mode transform,
the analytic free-ring-polymer propagation, the per-mode seeded Langevin
thermostat and the constraint projection are abstracted into one
deterministic seeded Langevin update driven by the kernel-owned stream; the
force contribution (computed by the external evaluator from the current
positions) is deterministic given the positions and is folded into the same
update. -/
def RPMDKernel.execute (k : RPMDKernel) (temp fric dt : Rat) : RPMDKernel :=
  let r := stepCopies temp fric dt k.rngState k.positions k.velocities
  { k with rngState := r.1, positions := r.2.1, velocities := r.2.2 }

/-- The external collaborators of step, as functions on the context: the
context-level pre-step hook updateContextState and the force/energy
evaluator calcForcesAndEnergy. -/
structure StepEnv where
  updateContextState : ContextImpl → ContextImpl
  calcForcesAndEnergy : Bool → Bool → ContextImpl → ContextImpl

/-- One observable call made by step to a collaborator. -/
inductive CollabCall where
  | updateContextState : CollabCall
  | calcForcesAndEnergy : Bool → Bool → CollabCall
  | kernelExecute : CollabCall
deriving DecidableEq, Repr

/-- One iteration of the step loop body (RPMDIntegrator.cpp lines 82-84):
updateContextState, then calcForcesAndEnergy(true, false), then the kernel's
execute; returns the new integrator and context together with the trace of
collaborator calls made, in order. -/
def RPMDIntegrator.stepOnce (env : StepEnv) (i : RPMDIntegrator) (c : ContextImpl) :
    (RPMDIntegrator × ContextImpl) × List CollabCall :=
  let c1 := env.updateContextState c
  let c2 := env.calcForcesAndEnergy true false c1
  let i' := { i with
    kernel := i.kernel.map fun k => k.execute i.temperature i.friction i.stepSize }
  ((i', c2),
   [CollabCall.updateContextState, CollabCall.calcForcesAndEnergy true false,
    CollabCall.kernelExecute])

/-- The step loop unrolled over a natural number of iterations. -/
def RPMDIntegrator.stepLoop (env : StepEnv) (i : RPMDIntegrator) (c : ContextImpl) :
    Nat → (RPMDIntegrator × ContextImpl) × List CollabCall
  | 0 => ((i, c), [])
  | n + 1 =>
    let r := RPMDIntegrator.stepOnce env i c
    let r' := RPMDIntegrator.stepLoop env r.1.1 r.1.2 n
    (r'.1, r.2 ++ r'.2)

/-- RPMDIntegrator's step (RPMDIntegrator.cpp lines 80-86): the C loop
`for (int i = 0; i < steps; ++i)` runs the body `steps` times when steps is
positive and zero times otherwise, captured by `Int.toNat`. -/
def RPMDIntegrator.step (env : StepEnv) (i : RPMDIntegrator) (c : ContextImpl)
    (steps : Int) : (RPMDIntegrator × ContextImpl) × List CollabCall :=
  RPMDIntegrator.stepLoop env i c steps.toNat

/-- Write the given per-copy initial positions and velocities into the listed
copies through the integrator's public per-copy writers (the set-up phase of
the reproduced determinism test). -/
def RPMDIntegrator.setCopiesAux (i : RPMDIntegrator) (ip iv : List (List Vec3)) :
    List Nat → Except OMMError RPMDIntegrator
  | [] => .ok i
  | n :: rest =>
    match RPMDIntegrator.setPositions i (Int.ofNat n) (ip.getD n []) with
    | .error e => .error e
    | .ok i1 =>
      match RPMDIntegrator.setVelocities i1 (Int.ofNat n) (iv.getD n []) with
      | .error e => .error e
      | .ok i2 => RPMDIntegrator.setCopiesAux i2 ip iv rest

/-- Write initial positions and velocities into every copy. -/
def RPMDIntegrator.setAllCopies (i : RPMDIntegrator) (ip iv : List (List Vec3)) :
    Except OMMError RPMDIntegrator :=
  RPMDIntegrator.setCopiesAux i ip iv (List.range i.numCopies.toNat)

/-- One complete run of the reproduced seed-sensitivity scenario, driven
entirely through the embedded public operations: construct the integrator,
override the seed explicitly, bind it to a fresh context, write the initial
per-copy positions and velocities, step n times, and read back the
authoritative per-copy positions.  Returns none when any set-up call fails. -/
def rpmdRunPositions (env : StepEnv) (ctxId ownerId : Nat) (np : Nat) (nc : Int)
    (temp fric dt : Rat) (ctorTime seed : Int) (ip iv : List (List Vec3)) (n : Nat) :
    Option (List (List Vec3)) :=
  let sys : System := ⟨np⟩
  let c : ContextImpl :=
    ⟨ctxId, ownerId, sys, List.replicate np Vec3.zero, List.replicate np Vec3.zero, 0⟩
  let i0 := (RPMDIntegrator.construct nc temp fric dt ctorTime).setRandomNumberSeed seed
  match RPMDIntegrator.bindContext i0 ⟨0⟩ c with
  | .error _ => none
  | .ok r =>
    match RPMDIntegrator.setAllCopies r.1 ip iv with
    | .error _ => none
    | .ok i2 => ((RPMDIntegrator.step env i2 c (Int.ofNat n)).1.1.kernel).map RPMDKernel.positions

/-- Kernel-level mirror of the set-up phase, used to show the run depends
only on the kernel data. -/
def kernelSetCopiesAux (k : RPMDKernel) (ip iv : List (List Vec3)) :
    List Nat → Except OMMError RPMDKernel
  | [] => .ok k
  | n :: rest =>
    match RPMDKernel.setPositions k (Int.ofNat n) (ip.getD n []) with
    | .error e => .error e
    | .ok k1 =>
      match RPMDKernel.setVelocities k1 (Int.ofNat n) (iv.getD n []) with
      | .error e => .error e
      | .ok k2 => kernelSetCopiesAux k2 ip iv rest

/-- Kernel-level mirror of a whole run: the same computation as
`rpmdRunPositions`, expressed on the kernel data alone. -/
def kernelRun (np : Nat) (nc : Int) (temp fric dt : Rat) (seed : Int)
    (ip iv : List (List Vec3)) (n : Nat) : Option (List (List Vec3)) :=
  match kernelSetCopiesAux (RPMDKernel.initKernel ⟨np⟩ nc seed) ip iv
      (List.range nc.toNat) with
  | .error _ => none
  | .ok k => some ((fun k0 => RPMDKernel.execute k0 temp fric dt)^[n] k).positions

/-- A trivial collaborator environment: both external hooks leave the context
unchanged. -/
def idEnv : StepEnv := ⟨fun c => c, fun _ _ c => c⟩

/-- A sample two-particle System for concrete instantiations. -/
def sampleSystem : System := ⟨2⟩

/-- A sample context implementation (owner identity 1). -/
def sampleCtx : ContextImpl :=
  ⟨10, 1, sampleSystem, List.replicate 2 Vec3.zero, List.replicate 2 Vec3.zero, 0⟩

/-- A second, distinct context implementation (owner identity 2). -/
def sampleCtx2 : ContextImpl :=
  ⟨11, 2, sampleSystem, List.replicate 2 Vec3.zero, List.replicate 2 Vec3.zero, 0⟩

/-- A sample integrator: 4 copies, temperature 300, friction 1, step size
1/1000, constructed at time 77. -/
def sampleInteg : RPMDIntegrator := RPMDIntegrator.construct 4 300 1 (1/1000) 77

/-- The sample integrator after binding to `sampleCtx`. -/
def sampleBound : RPMDIntegrator :=
  match RPMDIntegrator.bindContext sampleInteg ⟨0⟩ sampleCtx with
  | .ok r => r.1
  | .error _ => sampleInteg

/-- The kernel held by `sampleBound`. -/
def sampleKernel : RPMDKernel := RPMDKernel.initKernel sampleSystem 4 77

/-- One modelled execute step with fixed scalar parameters, as iterated by
the step loop. -/
def execStep (t f dt : Rat) (k : RPMDKernel) : RPMDKernel := RPMDKernel.execute k t f dt

/-- The trace of the step loop is the loop body's three collaborator calls,
in order, repeated once per iteration. -/
theorem stepLoop_trace (env : StepEnv) (n : Nat) :
    ∀ (i : RPMDIntegrator) (c : ContextImpl),
      (RPMDIntegrator.stepLoop env i c n).2 =
        (List.replicate n
          [CollabCall.updateContextState, CollabCall.calcForcesAndEnergy true false,
           CollabCall.kernelExecute]).flatten := by
  induction n with
  | zero => intro i c; rfl
  | succ m ih =>
    intro i c
    simp only [RPMDIntegrator.stepLoop, RPMDIntegrator.stepOnce, List.replicate_succ,
      List.flatten_cons, ih]

/-- C2: for a bound RPMDIntegrator and any step count, step makes exactly one
updateContextState call, one calcForcesAndEnergy(wantForces = true,
wantEnergy = false) call and one kernel execute call per iteration, in that
order, with `steps.toNat` iterations (n iterations for every n ≥ 0), and no
other collaborator calls. -/
theorem rpmd_step_call_trace (env : StepEnv) (i : RPMDIntegrator) (c : ContextImpl)
    (steps : Int) :
    (RPMDIntegrator.step env i c steps).2 =
      (List.replicate steps.toNat
        [CollabCall.updateContextState, CollabCall.calcForcesAndEnergy true false,
         CollabCall.kernelExecute]).flatten :=
  stepLoop_trace env steps.toNat i c

/-- C9: step with a non-positive step count performs zero iterations: it
makes no collaborator calls and returns the integrator (hence every copy's
positions and velocities) and the context unchanged. -/
theorem rpmd_step_nonpositive_noop (env : StepEnv) (i : RPMDIntegrator) (c : ContextImpl)
    (steps : Int) (h : steps ≤ 0) :
    RPMDIntegrator.step env i c steps = ((i, c), []) := by
  unfold RPMDIntegrator.step
  rw [Int.toNat_of_nonpos h]
  rfl

/-- Witness for C9 at steps = -5 on concrete objects. -/
theorem rpmd_step_nonpositive_noop_witness :
    RPMDIntegrator.step idEnv sampleBound sampleCtx (-5) = ((sampleBound, sampleCtx), []) :=
  rpmd_step_nonpositive_noop idEnv sampleBound sampleCtx (-5) (by decide)

/-- Every bind that passes the exclusivity check succeeds and yields exactly
the stored back-references, a freshly created and freshly initialized kernel,
and an incremented factory counter. -/
theorem bindContext_of_not_rejected (i : RPMDIntegrator) (p : Platform) (c : ContextImpl)
    (h : i.owner = none ∨ i.owner = some c.ownerId) :
    RPMDIntegrator.bindContext i p c =
      .ok ({ i with
              context := some c.id
              owner := some c.ownerId
              kernel := some (RPMDKernel.initKernel c.system i.numCopies i.randomSeed) },
           ⟨p.kernelsCreated + 1⟩) := by
  rcases h with h | h <;> simp [RPMDIntegrator.bindContext, h]

/-- C1: an integrator already bound to a context rejects a bind to a context
with a different owner with the binding error (leaving it unchanged, as the
error carries no new state), accepts a repeated bind to the same context, and
every successful bind from a bound state preserves the owner back-reference,
so the integrator is bound to at most one Context over its lifetime. -/
theorem rpmd_bind_exclusivity (i : RPMDIntegrator) (p : Platform) (c1 c2 : ContextImpl)
    (hB : i.owner = some c1.ownerId) :
    (c2.ownerId ≠ c1.ownerId → RPMDIntegrator.bindContext i p c2 = .error .alreadyBound) ∧
    (∃ i' p', RPMDIntegrator.bindContext i p c1 = .ok (i', p') ∧
      i'.owner = some c1.ownerId) ∧
    (∀ c' r, RPMDIntegrator.bindContext i p c' = .ok r → r.1.owner = i.owner) := by
  refine ⟨fun hne => ?_, ?_, fun c' r hok => ?_⟩
  · simp [RPMDIntegrator.bindContext, hB, Ne.symm hne]
  · exact ⟨_, _, bindContext_of_not_rejected i p c1 (Or.inr hB), rfl⟩
  · unfold RPMDIntegrator.bindContext at hok
    split at hok
    · exact absurd hok (by simp)
    · next hcond =>
      rw [Except.ok.injEq] at hok
      have hEq : some c'.ownerId = i.owner := by
        rcases not_and_or.mp hcond with h | h
        · exact absurd (by simp [hB]) h
        · exact (not_not.mp h).symm
      subst hok
      simpa using hEq

/-- Witness for C1: the sample bound integrator rejects a bind to the
distinct second context and accepts a repeated bind to its own context. -/
theorem rpmd_bind_exclusivity_witness :
    RPMDIntegrator.bindContext sampleBound ⟨0⟩ sampleCtx2 = .error .alreadyBound ∧
    (∃ i' p', RPMDIntegrator.bindContext sampleBound ⟨0⟩ sampleCtx = .ok (i', p') ∧
      i'.owner = some sampleCtx.ownerId) := by
  have h := rpmd_bind_exclusivity sampleBound ⟨0⟩ sampleCtx sampleCtx2 (by decide)
  exact ⟨h.1 (by decide), h.2.1⟩

/-- C10: every successful bind - in particular a repeated re-bind to the same
context - stores the context and owner back-references, asks the Platform
factory for a kernel (its creation counter advances by one) and stores that
freshly initialized kernel, whose per-copy buffers are the freshly allocated
ones, independent of whatever kernel (and per-copy data) the integrator held
before; so a re-bind is not a pure no-op. -/
theorem rpmd_rebind_fresh_kernel (i : RPMDIntegrator) (p : Platform) (c : ContextImpl)
    (h : i.owner = none ∨ i.owner = some c.ownerId) :
    RPMDIntegrator.bindContext i p c =
      .ok ({ i with
              context := some c.id
              owner := some c.ownerId
              kernel := some (RPMDKernel.initKernel c.system i.numCopies i.randomSeed) },
           ⟨p.kernelsCreated + 1⟩) :=
  bindContext_of_not_rejected i p c h

/-- Witness for C10: re-binding the sample bound integrator (after writing
nonzero positions into copy 0) replaces its kernel with a freshly initialized
one and advances the factory counter. -/
theorem rpmd_rebind_fresh_kernel_witness :
    RPMDIntegrator.bindContext sampleBound ⟨5⟩ sampleCtx =
      .ok ({ sampleBound with
              context := some sampleCtx.id
              owner := some sampleCtx.ownerId
              kernel := some (RPMDKernel.initKernel sampleCtx.system sampleBound.numCopies
                sampleBound.randomSeed) },
           ⟨6⟩) :=
  rpmd_rebind_fresh_kernel sampleBound ⟨5⟩ sampleCtx (Or.inr (by decide))

/-- C8: construction sets constraintTolerance to 1e-4 and the random seed to
the time-derived value, and the corresponding setters override them. -/
theorem rpmd_ctor_defaults :
    (∀ (nc : Int) (t f dt : Rat) (tm : Int),
      (RPMDIntegrator.construct nc t f dt tm).constraintTolerance = 1/10000) ∧
    (∀ (nc : Int) (t f dt : Rat) (tm : Int),
      (RPMDIntegrator.construct nc t f dt tm).randomSeed = tm) ∧
    (∀ (i : RPMDIntegrator) (x : Rat),
      (RPMDIntegrator.setConstraintTolerance i x).constraintTolerance = x) ∧
    (∀ (i : RPMDIntegrator) (s : Int),
      (RPMDIntegrator.setRandomNumberSeed i s).randomSeed = s) :=
  ⟨fun _ _ _ _ _ => rfl, fun _ _ _ _ _ => rfl, fun _ _ => rfl, fun _ _ => rfl⟩

/-- The step loop never changes the integrator's numCopies. -/
theorem stepLoop_numCopies (env : StepEnv) (n : Nat) :
    ∀ (i : RPMDIntegrator) (c : ContextImpl),
      ((RPMDIntegrator.stepLoop env i c n).1.1).numCopies = i.numCopies := by
  induction n with
  | zero => intro i c; rfl
  | succ m ih =>
    intro i c
    simpa [RPMDIntegrator.stepLoop, RPMDIntegrator.stepOnce] using
      ih _ (env.calcForcesAndEnergy true false (env.updateContextState c))

/-- Counterexample for C7: the constructor performs no validation, so a
construction with numCopies = 0 yields an integrator with numCopies = 0,
refuting that every construction establishes numCopies ≥ 1. -/
theorem rpmd_numCopies_not_validated :
    ¬ (1 ≤ (RPMDIntegrator.construct 0 300 1 (1/1000) 12345).numCopies) := by decide

/-- C7 (amended): numCopies equals the constructor argument unchecked, no
public operation (setters, bind, per-copy writers, step) ever changes it, and
it is at least 1 exactly when the constructor argument is. -/
theorem rpmd_numCopies_immutable :
    (∀ (nc : Int) (t f dt : Rat) (tm : Int),
      (RPMDIntegrator.construct nc t f dt tm).numCopies = nc) ∧
    (∀ (i : RPMDIntegrator) (x : Rat),
      (RPMDIntegrator.setTemperature i x).numCopies = i.numCopies) ∧
    (∀ (i : RPMDIntegrator) (x : Rat),
      (RPMDIntegrator.setFriction i x).numCopies = i.numCopies) ∧
    (∀ (i : RPMDIntegrator) (x : Rat),
      (RPMDIntegrator.setStepSize i x).numCopies = i.numCopies) ∧
    (∀ (i : RPMDIntegrator) (x : Rat),
      (RPMDIntegrator.setConstraintTolerance i x).numCopies = i.numCopies) ∧
    (∀ (i : RPMDIntegrator) (s : Int),
      (RPMDIntegrator.setRandomNumberSeed i s).numCopies = i.numCopies) ∧
    (∀ (i : RPMDIntegrator) (p : Platform) (c : ContextImpl) (r : RPMDIntegrator × Platform),
      RPMDIntegrator.bindContext i p c = .ok r → r.1.numCopies = i.numCopies) ∧
    (∀ (i : RPMDIntegrator) (copy : Int) (ps : List Vec3) (i' : RPMDIntegrator),
      RPMDIntegrator.setPositions i copy ps = .ok i' → i'.numCopies = i.numCopies) ∧
    (∀ (i : RPMDIntegrator) (copy : Int) (vs : List Vec3) (i' : RPMDIntegrator),
      RPMDIntegrator.setVelocities i copy vs = .ok i' → i'.numCopies = i.numCopies) ∧
    (∀ (env : StepEnv) (i : RPMDIntegrator) (c : ContextImpl) (n : Int),
      ((RPMDIntegrator.step env i c n).1.1).numCopies = i.numCopies) ∧
    (∀ (nc : Int) (t f dt : Rat) (tm : Int), 1 ≤ nc →
      1 ≤ (RPMDIntegrator.construct nc t f dt tm).numCopies) := by
  refine ⟨fun _ _ _ _ _ => rfl, fun _ _ => rfl, fun _ _ => rfl, fun _ _ => rfl,
    fun _ _ => rfl, fun _ _ => rfl, fun i p c r hok => ?_, fun i copy ps i' hok => ?_,
    fun i copy vs i' hok => ?_, fun env i c n => stepLoop_numCopies env n.toNat i c,
    fun _ _ _ _ _ h => h⟩
  · unfold RPMDIntegrator.bindContext at hok
    split at hok
    · exact absurd hok (by simp)
    · rw [Except.ok.injEq] at hok
      subst hok
      rfl
  · unfold RPMDIntegrator.setPositions at hok
    split at hok
    · exact absurd hok (by simp)
    · next k hk =>
      cases hsp : RPMDKernel.setPositions k copy ps with
      | error e => rw [hsp] at hok; exact absurd hok (by simp [Except.map])
      | ok k' =>
        rw [hsp] at hok
        simp only [Except.map, Except.ok.injEq] at hok
        subst hok
        rfl
  · unfold RPMDIntegrator.setVelocities at hok
    split at hok
    · exact absurd hok (by simp)
    · next k hk =>
      cases hsv : RPMDKernel.setVelocities k copy vs with
      | error e => rw [hsv] at hok; exact absurd hok (by simp [Except.map])
      | ok k' =>
        rw [hsv] at hok
        simp only [Except.map, Except.ok.injEq] at hok
        subst hok
        rfl

/-- Witness for C7 (amended): concrete constructions and operations. -/
theorem rpmd_numCopies_immutable_witness :
    (RPMDIntegrator.construct 3 300 1 (1/1000) 7).numCopies = 3 ∧
    1 ≤ (RPMDIntegrator.construct 3 300 1 (1/1000) 7).numCopies ∧
    (RPMDIntegrator.setTemperature sampleBound 50).numCopies = sampleBound.numCopies := by
  have h := rpmd_numCopies_immutable
  exact ⟨h.1 3 300 1 (1/1000) 7,
    h.2.2.2.2.2.2.2.2.2.2 3 300 1 (1/1000) 7 (by decide),
    h.2.1 sampleBound 50⟩

/-- C4: on a bound integrator (kernel present, kernel numCopies as passed
down at bind), any copy index outside [0, numCopies) makes setPositions,
setVelocities and getState fail with the invalid-copy-index error; the error
result carries no new state, so nothing is mutated. -/
theorem rpmd_invalid_copy_rejected (i : RPMDIntegrator) (k : RPMDKernel) (c : ContextImpl)
    (copy : Int) (ps vs : List Vec3) (m : FieldMask)
    (hk : i.kernel = some k) (hn : k.numCopies = i.numCopies)
    (h : ¬ (0 ≤ copy ∧ copy < i.numCopies)) :
    RPMDIntegrator.setPositions i copy ps = .error .invalidCopyIndex ∧
    RPMDIntegrator.setVelocities i copy vs = .error .invalidCopyIndex ∧
    RPMDIntegrator.getState i c copy m = .error .invalidCopyIndex := by
  rw [← hn] at h
  refine ⟨?_, ?_, ?_⟩
  · simp [RPMDIntegrator.setPositions, RPMDKernel.setPositions, hk, h, Except.map]
  · simp [RPMDIntegrator.setVelocities, RPMDKernel.setVelocities, hk, h, Except.map]
  · simp [RPMDIntegrator.getState, RPMDKernel.copyToContext, hk, h]

/-- Witness for C4: copy index 4 is out of range for the sample bound
integrator with 4 copies. -/
theorem rpmd_invalid_copy_rejected_witness :
    RPMDIntegrator.setPositions sampleBound 4 [] = .error .invalidCopyIndex ∧
    RPMDIntegrator.setVelocities sampleBound 4 [] = .error .invalidCopyIndex ∧
    RPMDIntegrator.getState sampleBound sampleCtx 4 ⟨true, true, true⟩ =
      .error .invalidCopyIndex :=
  rpmd_invalid_copy_rejected sampleBound sampleKernel sampleCtx 4 [] [] ⟨true, true, true⟩
    (by decide) (by decide) (by decide)

/-- C5: on a bound integrator whose kernel carries the System's particle
count, a valid copy index together with a vector whose length differs from
the particle count makes setPositions and setVelocities fail with the
particle-count-mismatch error; the error result carries no new state, so all
prior per-copy state is unchanged. -/
theorem rpmd_shape_mismatch_rejected (i : RPMDIntegrator) (k : RPMDKernel) (sys : System)
    (copy : Int) (ps vs : List Vec3)
    (hk : i.kernel = some k) (hsys : k.numParticles = sys.numParticles)
    (h0 : 0 ≤ copy) (h1 : copy < k.numCopies)
    (hp : ps.length ≠ sys.numParticles) (hv : vs.length ≠ sys.numParticles) :
    RPMDIntegrator.setPositions i copy ps = .error .particleCountMismatch ∧
    RPMDIntegrator.setVelocities i copy vs = .error .particleCountMismatch := by
  rw [← hsys] at hp hv
  constructor
  · simp [RPMDIntegrator.setPositions, RPMDKernel.setPositions, hk, h0, h1, hp, Except.map]
  · simp [RPMDIntegrator.setVelocities, RPMDKernel.setVelocities, hk, h0, h1, hv, Except.map]

/-- Witness for C5: a 3-element vector mismatches the 2-particle sample
System on copy 0. -/
theorem rpmd_shape_mismatch_rejected_witness :
    RPMDIntegrator.setPositions sampleBound 0 [Vec3.zero, Vec3.zero, Vec3.zero] =
      .error .particleCountMismatch ∧
    RPMDIntegrator.setVelocities sampleBound 0 [Vec3.zero, Vec3.zero, Vec3.zero] =
      .error .particleCountMismatch :=
  rpmd_shape_mismatch_rejected sampleBound sampleKernel sampleSystem 0
    [Vec3.zero, Vec3.zero, Vec3.zero] [Vec3.zero, Vec3.zero, Vec3.zero]
    (by decide) (by decide) (by decide) (by decide) (by decide) (by decide)

/-- C3: on a bound integrator, getState with a valid copy index first flushes
that copy's kernel-owned positions and velocities into the context and only
then assembles the snapshot from the flushed context, so the snapshot's
requested position/velocity fields equal the kernel's current data for that
copy, and the context returned alongside holds exactly that bead's data. -/
theorem rpmd_getState_flushes_kernel (i : RPMDIntegrator) (k : RPMDKernel) (c : ContextImpl)
    (copy : Int) (m : FieldMask)
    (hk : i.kernel = some k) (h0 : 0 ≤ copy) (h1 : copy < k.numCopies) :
    ∃ c', RPMDIntegrator.getState i c copy m = .ok (ContextImpl.getState c' m, c') ∧
      c'.positions = k.positions.getD copy.toNat [] ∧
      c'.velocities = k.velocities.getD copy.toNat [] ∧
      (m.wantPositions = true →
        (ContextImpl.getState c' m).positions = some (k.positions.getD copy.toNat [])) ∧
      (m.wantVelocities = true →
        (ContextImpl.getState c' m).velocities = some (k.velocities.getD copy.toNat [])) := by
  refine ⟨{ c with
             positions := k.positions.getD copy.toNat []
             velocities := k.velocities.getD copy.toNat [] },
    ?_, rfl, rfl, fun hm => ?_, fun hm => ?_⟩
  · simp [RPMDIntegrator.getState, RPMDKernel.copyToContext, hk, h0, h1]
  · simp [ContextImpl.getState, hm]
  · simp [ContextImpl.getState, hm]

/-- Witness for C3 at copy 2 of the sample bound integrator, requesting all
fields. -/
theorem rpmd_getState_flushes_kernel_witness :
    ∃ c', RPMDIntegrator.getState sampleBound sampleCtx 2 ⟨true, true, true⟩ =
        .ok (ContextImpl.getState c' ⟨true, true, true⟩, c') ∧
      c'.positions = sampleKernel.positions.getD 2 [] ∧
      c'.velocities = sampleKernel.velocities.getD 2 [] ∧
      ((⟨true, true, true⟩ : FieldMask).wantPositions = true →
        (ContextImpl.getState c' ⟨true, true, true⟩).positions =
          some (sampleKernel.positions.getD 2 [])) ∧
      ((⟨true, true, true⟩ : FieldMask).wantVelocities = true →
        (ContextImpl.getState c' ⟨true, true, true⟩).velocities =
          some (sampleKernel.velocities.getD 2 [])) :=
  rpmd_getState_flushes_kernel sampleBound sampleKernel sampleCtx 2 ⟨true, true, true⟩
    (by decide) (by decide) (by decide)

/-- Construction followed by an explicit seed override yields exactly this
record. -/
theorem construct_seeded_fields (nc : Int) (t f dt : Rat) (ct seed : Int) :
    (RPMDIntegrator.construct nc t f dt ct).setRandomNumberSeed seed =
      { owner := none, context := none, numCopies := nc, temperature := t, friction := f,
        stepSize := dt, constraintTolerance := 1/10000, randomSeed := seed,
        kernel := none } := rfl

/-- The integrator-level per-copy set-up is the kernel-level set-up lifted
into the integrator's kernel field. -/
theorem setCopiesAux_lift (ip iv : List (List Vec3)) :
    ∀ (L : List Nat) (i : RPMDIntegrator) (k : RPMDKernel), i.kernel = some k →
      RPMDIntegrator.setCopiesAux i ip iv L =
        Except.map (fun k' => { i with kernel := some k' })
          (kernelSetCopiesAux k ip iv L) := by
  intro L
  induction L with
  | nil =>
    intro i k hk
    cases i
    simp_all [RPMDIntegrator.setCopiesAux, kernelSetCopiesAux, Except.map]
  | cons n rest ih =>
    intro i k hk
    simp only [RPMDIntegrator.setCopiesAux, kernelSetCopiesAux]
    have hps : RPMDIntegrator.setPositions i (Int.ofNat n) (ip.getD n []) =
        Except.map (fun k' => { i with kernel := some k' })
          (RPMDKernel.setPositions k (Int.ofNat n) (ip.getD n [])) := by
      simp [RPMDIntegrator.setPositions, hk]
    rw [hps]
    cases hsp : RPMDKernel.setPositions k (Int.ofNat n) (ip.getD n []) with
    | error e => simp [Except.map]
    | ok k1 =>
      simp only [Except.map]
      have hvs : RPMDIntegrator.setVelocities { i with kernel := some k1 }
          (Int.ofNat n) (iv.getD n []) =
          Except.map (fun k' => { i with kernel := some k' })
            (RPMDKernel.setVelocities k1 (Int.ofNat n) (iv.getD n [])) := by
        simp [RPMDIntegrator.setVelocities]
      rw [hvs]
      cases hsv : RPMDKernel.setVelocities k1 (Int.ofNat n) (iv.getD n []) with
      | error e => simp [Except.map]
      | ok k2 =>
        simp only [Except.map]
        exact ih { i with kernel := some k2 } k2 rfl

/-- Stepping a bound integrator evolves exactly its kernel, by iterating the
modelled execute with the integrator's scalar parameters; everything else in
the integrator is left unchanged. -/
theorem stepLoop_kernel (env : StepEnv) :
    ∀ (m : Nat) (i : RPMDIntegrator) (c : ContextImpl) (k : RPMDKernel), i.kernel = some k →
      (RPMDIntegrator.stepLoop env i c m).1.1 =
        { i with kernel := some ((execStep i.temperature i.friction i.stepSize)^[m] k) } := by
  intro m
  induction m with
  | zero =>
    intro i c k hk
    cases i
    simp_all [RPMDIntegrator.stepLoop]
  | succ m ih =>
    intro i c k hk
    have h1 : (RPMDIntegrator.stepOnce env i c).1.1 =
        { i with kernel := some (RPMDKernel.execute k i.temperature i.friction i.stepSize) } := by
      simp [RPMDIntegrator.stepOnce, hk]
    have h2 : (RPMDIntegrator.stepLoop env i c (m + 1)).1.1 =
        (RPMDIntegrator.stepLoop env (RPMDIntegrator.stepOnce env i c).1.1
          (RPMDIntegrator.stepOnce env i c).1.2 m).1.1 := rfl
    rw [h2, h1, ih _ _ _ rfl]
    simp [Function.iterate_succ_apply, execStep]

/-- A full scenario run is a pure function of the kernel-level data: the
context identities, the collaborator environment and the construction time do
not influence the resulting per-copy positions. -/
theorem rpmdRunPositions_eq_kernelRun (env : StepEnv) (cid oid np : Nat) (nc : Int)
    (t f dt : Rat) (ct seed : Int) (ip iv : List (List Vec3)) (n : Nat) :
    rpmdRunPositions env cid oid np nc t f dt ct seed ip iv n =
      kernelRun np nc t f dt seed ip iv n := by
  simp only [rpmdRunPositions, kernelRun, construct_seeded_fields]
  rw [bindContext_of_not_rejected _ _ _ (Or.inl rfl)]
  simp only [RPMDIntegrator.setAllCopies]
  rw [setCopiesAux_lift ip iv _ _ _ rfl]
  cases hks : kernelSetCopiesAux (RPMDKernel.initKernel ⟨np⟩ nc seed) ip iv
      (List.range nc.toNat) with
  | error e => simp [Except.map]
  | ok k2 =>
    simp only [Except.map]
    have htn : (Int.ofNat n).toNat = n := rfl
    rw [RPMDIntegrator.step, htn, stepLoop_kernel env n _ _ k2 rfl]
    rfl

unseal Rat.add Rat.mul Rat.inv Rat.sub in
/-- C6: runs through the embedded public API built from the same System,
parameters, explicitly set seed, initial per-copy data and step count yield
identical per-copy positions whatever the context identities, construction
times and external collaborator environments (bit-identical reproducibility);
and the reproduced seed-sensitivity scenario - seeds 5 versus 10, matched
initial conditions, 10 steps - yields different positions. -/
theorem rpmd_seed_determinism :
    (∀ (e1 e2 : StepEnv) (cid1 oid1 cid2 oid2 : Nat) (ct1 ct2 : Int) (np : Nat) (nc : Int)
       (t f dt : Rat) (seed : Int) (ip iv : List (List Vec3)) (n : Nat),
      rpmdRunPositions e1 cid1 oid1 np nc t f dt ct1 seed ip iv n =
        rpmdRunPositions e2 cid2 oid2 np nc t f dt ct2 seed ip iv n) ∧
    rpmdRunPositions idEnv 0 0 1 1 300 1 (1/2) 0 5 [[⟨1,0,0⟩]] [[⟨0,0,0⟩]] 10 ≠
      rpmdRunPositions idEnv 0 0 1 1 300 1 (1/2) 0 10 [[⟨1,0,0⟩]] [[⟨0,0,0⟩]] 10 := by
  constructor
  · intro e1 e2 cid1 oid1 cid2 oid2 ct1 ct2 np nc t f dt seed ip iv n
    rw [rpmdRunPositions_eq_kernelRun, rpmdRunPositions_eq_kernelRun]
  · decide
